import Mathlib

/-!
Shallow embedding of the Life Forge timer/session engine
(`life-forge-hub/src/App.jsx`) and proofs about its specification.

Modelling conventions:
* JS day-key strings (`dayKey`, `yesterdayKey`) are in bijection with
  calendar days, so days are modelled as integers; `yesterdayKey()` of
  day `d` is `d - 1`, and string equality of day keys is integer equality.
* Wall-clock instants are integer epoch milliseconds (JS `Date` values);
  `endDate - new Date(startISO)` is millisecond subtraction.
* JS numbers that can be fractional (`lengthMin`, the intermediate
  `ms / 1000`) are rationals; `Math.round` is `roundHalfUp` below
  (round half toward positive infinity, exactly JS semantics).
* `remainingSec` (`time`) is an integer: every value the component can
  store in it is an integer (initial values, `focusLenSec`/`breakLenSec`,
  `Math.round(..) * 60`, and the minutes editor whose input is filtered
  by the regex `^\d\x7b0,3\x7d$`, so `Number(...)` of it is a natural number).
* `genId()` (random string id) is modelled as a fresh-id counter
  `nextId` threaded through the state; task metadata carried uninterpreted on
  a session record (`taskId`, `taskLabel`) is omitted as no claim
  mentions it.
-/

/-- JS `Math.round`: round half toward positive infinity. -/
def roundHalfUp (q : ℚ) : ℤ := ⌊q + 1/2⌋

/-- Timer mode: `"focus"` or `"break"` in the source. -/
inductive Mode where
  | focus : Mode
  | brk : Mode
deriving DecidableEq, Repr

/-- Session record appended to the capped log by `saveSession` in the
source (`id`, `mode`, `startISO`, `endISO`, `durationSec`). -/
structure Session where
  sid : ℕ := 0
  mode : Mode := Mode.focus
  startMs : ℤ := 0
  endMs : ℤ := 0
  durationSec : ℤ := 0
deriving DecidableEq, Repr

/-- Cap of the session log (`MAX_SESSIONS` in the source). -/
def MAX_SESSIONS : ℕ := 500

/-- The list-level content of `saveSession` in the source: push the new
entry, then `splice(0, length - MAX_SESSIONS)` (drop from the front)
when the cap is exceeded. -/
def saveSession (arr : List Session) (entry : Session) : List Session :=
  let arr2 := arr ++ [entry]
  if arr2.length > MAX_SESSIONS then arr2.drop (arr2.length - MAX_SESSIONS) else arr2

/-- Closed form of `saveSession`: it is always a drop-from-the-front of
the pushed list (dropping zero elements when under the cap). -/
lemma saveSession_eq (arr : List Session) (entry : Session) :
    saveSession arr entry = (arr ++ [entry]).drop (arr.length + 1 - MAX_SESSIONS) := by
  unfold saveSession
  by_cases h : (arr ++ [entry]).length > MAX_SESSIONS
  · simp only [h, if_true]
    simp [List.length_append]
  · simp only [h, if_false]
    have hlen : (arr ++ [entry]).length = arr.length + 1 := by simp
    have h0 : arr.length + 1 - MAX_SESSIONS = 0 := by omega
    simp [h0]

/-- The new entry is always the last element of the log after `saveSession`. -/
lemma saveSession_getLast (arr : List Session) (entry : Session) :
    (saveSession arr entry).getLast? = some entry := by
  rw [saveSession_eq]
  have hk : arr.length + 1 - MAX_SESSIONS ≤ arr.length := by
    have : 1 ≤ MAX_SESSIONS := by decide
    omega
  rw [List.drop_append_of_le_length hk]
  rw [List.getLast?_append_of_ne_nil _ (by simp)]
  simp

/-- Daily stats object persisted under the `lf_stats` key
(`todayDate`, `todayPomos`, `todayFocusSec`, `streak`, `lastDay`). -/
structure Stats where
  todayDate : ℤ := 0
  todayPomos : ℕ := 0
  todayFocusSec : ℤ := 0
  streak : ℕ := 0
  lastDay : Option ℤ := none
deriving DecidableEq, Repr

/-- The fresh-stats object built by `loadStats` when nothing is stored
(or the stored JSON fails to parse). -/
def freshStats (today : ℤ) : Stats :=
  { todayDate := today, todayPomos := 0, todayFocusSec := 0, streak := 0, lastDay := none }

/-- `loadStats` from the source: `stored = none` models both a missing
`lf_stats` key and a parse failure (the `catch` branch), which build the
same default object; a stale `todayDate` is rolled over to today with the
daily counters cleared and all other fields spread through unchanged. -/
def loadStats (stored : Option Stats) (today : ℤ) : Stats :=
  match stored with
  | none => freshStats today
  | some s =>
    if s.todayDate ≠ today then
      { s with todayDate := today, todayPomos := 0, todayFocusSec := 0 }
    else s

/-- Whole engine state: the component state of `App` that the claims are
about, plus the persisted session log, the fresh-id counter replacing
`genId()`, and a ghost counter `fires` counting how many times the body
of `handleTimerEnd` (past its `endedRef` guard) has executed. -/
structure EngineState where
  mode : Mode := Mode.focus
  time : ℤ := 25 * 60
  sessionTotalSec : ℤ := 25 * 60
  isRunning : Bool := false
  ended : Bool := false
  stats : Stats := {}
  currentSessionId : Option ℕ := none
  sessionStartMs : Option ℤ := none
  log : List Session := []
  nextId : ℕ := 0
  fires : ℕ := 0
deriving DecidableEq, Repr

/-- `DEFAULT_FOCUS_MIN * 60` from the source. -/
def focusLenSec : ℤ := 25 * 60

/-- `DEFAULT_BREAK_MIN * 60` from the source. -/
def breakLenSec : ℤ := 5 * 60

/-- The `setInterval` callback: `setTime((t) => (t > 0 ? t - 1 : 0))`. -/
def tickSec (t : ℤ) : ℤ := if t > 0 then t - 1 else 0

/-- One tick event; the interval only exists while `isRunning` is true
(the effect tears it down otherwise), so the event is guarded on it. -/
def tick (s : EngineState) : EngineState :=
  if s.isRunning then { s with time := tickSec s.time } else s

/-- `handleStartPause` from the source: toggles `isRunning`; when starting
with no in-flight session id, captures a fresh session id (`genId()`,
modelled by the counter) and the current instant as start timestamp. -/
def handleStartPause (now : ℤ) (s : EngineState) : EngineState :=
  if s.isRunning = false ∧ s.currentSessionId = none then
    { s with isRunning := true, currentSessionId := some s.nextId,
             nextId := s.nextId + 1, sessionStartMs := some now }
  else
    { s with isRunning := !s.isRunning }

/-- The deferred auto-start callback scheduled by `applyNextTask`:
`setTimeout(() => setIsRunning(true), ...)` — it only flips the running
flag and touches nothing else. -/
def autoStartFire (s : EngineState) : EngineState :=
  { s with isRunning := true }

/-- The `elapsedSec` computation of `handleTimerEnd`: elapsed wall-clock
seconds `Math.max(1, Math.round((endDate - start) / 1000))` when a start
timestamp was captured, and the fallback `sessionTotalSec` otherwise. -/
def elapsedSecOf (now : ℤ) (s : EngineState) : ℤ :=
  match s.sessionStartMs with
  | some t0 => max 1 (roundHalfUp (((now - t0 : ℤ) : ℚ) / 1000))
  | none => s.sessionTotalSec

/-- The streak computation inside the `setStats` updater of
`handleTimerEnd`.  JS `prev.streak || 1` reads as `1` when the streak is
`0` (falsy), and `(prev.streak || 0) + 1` is `streak + 1` over `ℕ`;
`yesterdayKey()` of day `today` is `today - 1`. -/
def nextStreak (today : ℤ) (prev : Stats) : ℕ :=
  if prev.lastDay = some today then (if prev.streak = 0 then 1 else prev.streak)
  else if prev.lastDay = some (today - 1) then prev.streak + 1
  else 1

/-- The full stats object built by the `setStats` updater on a focus
completion (`todayPomos + 1`, focus seconds accumulated, streak rule,
`lastDay := today`). -/
def focusStatsNext (today : ℤ) (elapsedSec : ℤ) (prev : Stats) : Stats :=
  { todayDate := today
    todayPomos := prev.todayPomos + 1
    todayFocusSec := prev.todayFocusSec + elapsedSec
    streak := nextStreak today prev
    lastDay := some today }

/-- `handleTimerEnd` from the source: early-return on the `endedRef`
guard; otherwise set the guard, stop running, append the finalized
session record, clear the in-flight session id/start, update and persist
stats on focus completions only, and switch mode with the configured duration
of the other mode.  `today` is `dayKey()` of `now`.  The ghost field
`fires` counts executions of this body. -/
def handleTimerEnd (now today : ℤ) (s : EngineState) : EngineState :=
  if s.ended then s
  else
    let elapsedSec := elapsedSecOf now s
    let entry : Session :=
      { sid := s.currentSessionId.getD s.nextId
        mode := s.mode
        startMs := s.sessionStartMs.getD (now - s.sessionTotalSec * 1000)
        endMs := now
        durationSec := elapsedSec }
    let s1 : EngineState :=
      { s with ended := true, isRunning := false,
               log := saveSession s.log entry,
               currentSessionId := none, sessionStartMs := none,
               nextId := s.nextId + (if s.currentSessionId = none then 1 else 0),
               fires := s.fires + 1 }
    if s.mode = Mode.focus then
      { s1 with stats := focusStatsNext today elapsedSec s.stats,
                mode := Mode.brk, time := breakLenSec, sessionTotalSec := breakLenSec }
    else
      { s1 with mode := Mode.focus, time := focusLenSec, sessionTotalSec := focusLenSec }

/-- The zero-crossing effect from the source:
`if (isRunning && time === 0 && !endedRef.current) handleTimerEnd()`. -/
def zeroEffect (now today : ℤ) (s : EngineState) : EngineState :=
  if s.isRunning = true ∧ s.time = 0 ∧ s.ended = false then handleTimerEnd now today s else s

/-- The re-arm effect from the source: on a change of `mode` or
`sessionTotalSec`, `endedRef.current = false`. -/
def rearm (s : EngineState) : EngineState :=
  { s with ended := false }

/-- Next-task candidate fetched from the proxy; only the field used by
the duration formula of `applyNextTask` is modelled (`plannedStartISO` only
drives when the `autoStartFire` event is delivered).  `none` models a
missing `lengthMin` field. -/
structure NextTask where
  lengthMin : Option ℚ := none
deriving DecidableEq

/-- The seconds formula of `applyNextTask`:
`Math.max(60, Math.round(Number(nextTask.lengthMin || 25)) * 60)`.
JS `lengthMin || 25` yields `25` for every falsy `lengthMin`, i.e. for a
missing field and for the number `0`. -/
def taskSecs (lengthMin : Option ℚ) : ℤ :=
  max 60 (roundHalfUp (match lengthMin with
    | none => 25
    | some q => if q = 0 then 25 else q) * 60)

/-- `applyNextTask` from the source (state part): stop running, force
focus mode, and set both `time` and `sessionTotalSec` to the task
seconds.  The `setTimeout` it schedules is the `autoStartFire` event. -/
def applyNextTask (task : NextTask) (s : EngineState) : EngineState :=
  { s with isRunning := false, mode := Mode.focus,
           time := taskSecs task.lengthMin,
           sessionTotalSec := taskSecs task.lengthMin }

/-- `commitMinutes` from the source: clamp the entered minutes to
`[1, 999]` via `Math.max(1, Math.min(999, n))`, keep the current seconds
remainder `time % 60` (JS `%` is the truncated remainder `Int.tmod`),
set both `time` and `sessionTotalSec`, and clear the end guard.  The
digit-only input filter makes the committed number an integer. -/
def commitMinutes (n : ℤ) (s : EngineState) : EngineState :=
  let c : ℤ := max 1 (min 999 n)
  let newTotal : ℤ := c * 60 + Int.tmod s.time 60
  { s with time := newTotal, sessionTotalSec := newTotal, ended := false }

/-- Events that can be delivered to the engine between two user actions:
display ticks, (possibly duplicated) deliveries of the zero-crossing
effect, and (possibly spurious) deliveries of the re-arm effect.  Each
carries the wall-clock instant and day at which it is delivered. -/
inductive Ev where
  | tickEv : Ev
  | zeroEv : Ev
  | rearmEv : Ev
deriving DecidableEq, Repr

/-- Deliver one event at instant `now` on day `today`. -/
def stepEv (p : Ev × ℤ × ℤ) (s : EngineState) : EngineState :=
  match p with
  | (Ev.tickEv, _, _) => tick s
  | (Ev.zeroEv, now, today) => zeroEffect now today s
  | (Ev.rearmEv, _, _) => rearm s

/-- Deliver a list of timestamped events in order. -/
def runEvents (evs : List (Ev × ℤ × ℤ)) (s : EngineState) : EngineState :=
  evs.foldl (fun s p => stepEv p s) s

/-- Local persistence: the two keys the engine writes
(`lf_sessions`, `lf_stats`) plus a flag modelling whether `setItem`
raises (e.g. quota exceeded) on this storage. -/
structure Storage where
  sessions : List Session := []
  statsKV : Option Stats := none
  writeFails : Bool := false
deriving DecidableEq, Repr

/-- Interaction of `saveSession` with storage: its whole body is inside
`try ... catch \x7b\x7d`, so a failing `setItem` leaves the stored log
unchanged and nothing propagates; on success the capped append is stored. -/
def saveSessionStore (st : Storage) (entry : Session) : Storage :=
  let attempt : Except Unit Storage :=
    if st.writeFails then Except.error ()
    else Except.ok { st with sessions := saveSession st.sessions entry }
  match attempt with
  | Except.error _ => st
  | Except.ok st2 => st2

/-- `saveStats` from the source:
`(s) => localStorage.setItem("lf_stats", JSON.stringify(s))` — a bare
`setItem` with no `try`/`catch`, so a storage failure propagates to the
caller (modelled as `Except.error`). -/
def saveStats (st : Storage) (v : Stats) : Except Unit Storage :=
  if st.writeFails then Except.error ()
  else Except.ok { st with statsKV := some v }

/-- C2: after each append via `saveSession`, the session log holds at most
500 entries, the new entry is at the end, and the result is a suffix of
the pushed list, i.e. only the oldest (front) entries were removed. -/
theorem saveSession_cap_fifo (arr : List Session) (entry : Session) :
    (saveSession arr entry).length ≤ MAX_SESSIONS ∧
    (saveSession arr entry).getLast? = some entry ∧
    (saveSession arr entry).IsSuffix (arr ++ [entry]) := by
  refine ⟨?_, saveSession_getLast arr entry, ?_⟩
  · rw [saveSession_eq, List.length_drop, List.length_append]
    have : 1 ≤ MAX_SESSIONS := by decide
    simp only [List.length_singleton]
    omega
  · rw [saveSession_eq]
    exact List.drop_suffix _ _

/-- One tick never increases `time`, and keeps it nonnegative when it was. -/
lemma tick_time_le (s : EngineState) (h : 0 ≤ s.time) :
    (tick s).time ≤ s.time ∧ 0 ≤ (tick s).time := by
  have ht : (tick s).time =
      if s.isRunning then (if s.time > 0 then s.time - 1 else 0) else s.time := by
    unfold tick tickSec
    split_ifs <;> rfl
  rw [ht]
  split_ifs <;> constructor <;> omega

/-- Iterated ticks never increase `time` and keep it nonnegative. -/
lemma tick_iterate_bounds (n : ℕ) (s : EngineState) (h : 0 ≤ s.time) :
    (tick^[n] s).time ≤ s.time ∧ 0 ≤ (tick^[n] s).time := by
  induction n generalizing s with
  | zero => exact ⟨le_refl _, h⟩
  | succ k ih =>
    rw [Function.iterate_succ_apply]
    have h1 := tick_time_le s h
    have h2 := ih (tick s) h1.2
    exact ⟨le_trans h2.1 h1.1, h2.2⟩

/-- C4: along every sequence of tick events, `remainingSec` (`time`) is
monotonically non-increasing and never negative, and while running each
tick with positive time decreases it by exactly 1. -/
theorem tick_monotone_nonneg (s : EngineState) (h : 0 ≤ s.time) (m n : ℕ) (hmn : m ≤ n) :
    (tick^[n] s).time ≤ (tick^[m] s).time ∧ 0 ≤ (tick^[n] s).time ∧
    (s.isRunning = true → 0 < s.time → (tick s).time = s.time - 1) := by
  obtain ⟨k, rfl⟩ : ∃ k, n = k + m := ⟨n - m, by omega⟩
  have hm := tick_iterate_bounds m s h
  have key : tick^[k + m] s = tick^[k] (tick^[m] s) := Function.iterate_add_apply tick k m s
  have hrest := tick_iterate_bounds k (tick^[m] s) hm.2
  refine ⟨?_, ?_, ?_⟩
  · rw [key]; exact hrest.1
  · rw [key]; exact hrest.2
  · intro hr hpos
    simp [tick, tickSec, hr, hpos]

/-- Demonstration state for the C4 witness: a running timer at 10 seconds. -/
def tickDemo : EngineState := { time := 10, isRunning := true }

/-- C4 witness at a concrete running state, with `m = 1`, `n = 3`. -/
theorem tick_monotone_nonneg_witness :
    (tick^[3] tickDemo).time ≤ (tick^[1] tickDemo).time ∧ 0 ≤ (tick^[3] tickDemo).time ∧
    (tickDemo.isRunning = true → 0 < tickDemo.time → (tick tickDemo).time = tickDemo.time - 1) :=
  tick_monotone_nonneg tickDemo (by decide) 1 3 (by decide)

/-- Number of executed mode-end bodies, plus one pending execution when
the engine is running: the quantity that event delivery cannot increase. -/
def runMeasure (s : EngineState) : ℕ := s.fires + (if s.isRunning then 1 else 0)

/-- Delivering any single tick / zero-crossing / re-arm event cannot
increase `runMeasure`: firing the mode end trades the `isRunning` bit
for one `fires` increment. -/
lemma stepEv_measure (p : Ev × ℤ × ℤ) (s : EngineState) :
    runMeasure (stepEv p s) ≤ runMeasure s := by
  obtain ⟨e, now, today⟩ := p
  cases e with
  | tickEv =>
    simp only [stepEv, tick, runMeasure]
    split <;> simp
  | zeroEv =>
    simp only [stepEv, zeroEffect]
    split
    · rename_i hcond
      obtain ⟨hr, ht, he⟩ := hcond
      simp only [handleTimerEnd, he, if_false, Bool.false_eq_true, runMeasure, hr]
      split <;> simp
    · exact le_refl _
  | rearmEv =>
    simp [stepEv, rearm, runMeasure]

/-- `runMeasure` is non-increasing along any event sequence. -/
lemma runEvents_measure (evs : List (Ev × ℤ × ℤ)) (s : EngineState) :
    runMeasure (runEvents evs s) ≤ runMeasure s := by
  induction evs generalizing s with
  | nil => exact le_refl _
  | cons p rest ih =>
    have hstep := stepEv_measure p s
    have hrest := ih (stepEv p s)
    simp only [runEvents, List.foldl_cons] at hrest ⊢
    exact le_trans hrest hstep

/-- C3: along any sequence of tick / zero-crossing / re-arm event
deliveries — including duplicate deliveries of the zero-crossing effect
before the guard is re-armed — the mode-end body executes at most once
(the ghost counter `fires` grows by at most 1). -/
theorem modeEnd_atMostOnce (evs : List (Ev × ℤ × ℤ)) (s : EngineState) :
    (runEvents evs s).fires ≤ s.fires + 1 := by
  have h := runEvents_measure evs s
  simp only [runMeasure] at h
  split_ifs at h <;> omega

/-- On a focus completion that is not guard-blocked, the new streak is
exactly `nextStreak` of the previous stats. -/
lemma handleTimerEnd_streak (now today : ℤ) (s : EngineState)
    (hmode : s.mode = Mode.focus) (hend : s.ended = false) :
    (handleTimerEnd now today s).stats.streak = nextStreak today s.stats := by
  unfold handleTimerEnd
  simp [hend, hmode, focusStatsNext]

/-- C1 (amended): for a prior stats state with `lastDay = some D`, a focus
completion on day `D` leaves a positive streak unchanged but coerces a
zero streak to 1 (JS `prev.streak || 1`); on day `D + 1` it increments
the streak by exactly 1; on any later day it resets the streak to 1. -/
theorem streak_rule (now today D : ℤ) (s : EngineState)
    (hmode : s.mode = Mode.focus) (hend : s.ended = false)
    (hD : s.stats.lastDay = some D) :
    ((today = D ∧ 1 ≤ s.stats.streak) →
        (handleTimerEnd now today s).stats.streak = s.stats.streak) ∧
    ((today = D ∧ s.stats.streak = 0) →
        (handleTimerEnd now today s).stats.streak = 1) ∧
    (today = D + 1 →
        (handleTimerEnd now today s).stats.streak = s.stats.streak + 1) ∧
    (D + 1 < today →
        (handleTimerEnd now today s).stats.streak = 1) := by
  rw [handleTimerEnd_streak now today s hmode hend]
  unfold nextStreak
  rw [hD]
  refine ⟨?_, ?_, ?_, ?_⟩
  · rintro ⟨rfl, hpos⟩
    rw [if_pos rfl, if_neg (by omega)]
  · rintro ⟨rfl, hz⟩
    rw [if_pos rfl, if_pos hz]
  · rintro rfl
    rw [if_neg (by simp only [Option.some.injEq]; omega),
        if_pos (by simp only [Option.some.injEq]; omega)]
  · intro hgt
    rw [if_neg (by simp only [Option.some.injEq]; omega),
        if_neg (by simp only [Option.some.injEq]; omega)]

/-- Demonstration state for the C1 witness: streak 3, last active day 5,
focus mode, guard clear. -/
def streakDemo : EngineState :=
  { stats := { streak := 3, lastDay := some 5 } }

/-- C1 witness: completion on day 6 with last active day 5 (yesterday). -/
theorem streak_rule_witness :
    (((6 : ℤ) = 5 ∧ 1 ≤ streakDemo.stats.streak) →
        (handleTimerEnd 0 6 streakDemo).stats.streak = streakDemo.stats.streak) ∧
    (((6 : ℤ) = 5 ∧ streakDemo.stats.streak = 0) →
        (handleTimerEnd 0 6 streakDemo).stats.streak = 1) ∧
    ((6 : ℤ) = 5 + 1 →
        (handleTimerEnd 0 6 streakDemo).stats.streak = streakDemo.stats.streak + 1) ∧
    ((5 : ℤ) + 1 < 6 →
        (handleTimerEnd 0 6 streakDemo).stats.streak = 1) :=
  streak_rule 0 6 5 streakDemo rfl rfl rfl

/-- Demonstration state for the C1 counterexample: stored streak 0 with
`lastDay` equal to the completion day. -/
def streakZeroDemo : EngineState :=
  { stats := { streak := 0, lastDay := some 0 } }

/-- C1 counterexample: with a stored streak of 0 and last active day
equal to today, a focus completion on that same day sets the streak to 1
instead of leaving it unchanged at 0. -/
theorem streak_rule_counterexample :
    streakZeroDemo.stats.lastDay = some 0 ∧
    streakZeroDemo.stats.streak = 0 ∧
    (handleTimerEnd 0 0 streakZeroDemo).stats.streak = 1 := by
  refine ⟨rfl, rfl, ?_⟩
  rfl

/-- C5 (amended): for any candidate with a nonzero numeric `lengthMin`,
`applyNextTask` forces focus mode, stops running, and sets both `time`
and `sessionTotalSec` to `max 60 (round lengthMin * 60)`; a `lengthMin`
of `0` is falsy in JS and therefore falls back to the 25-minute default
instead of obeying this formula. -/
theorem applyNextTask_spec (q : ℚ) (s : EngineState) (hq : q ≠ 0) :
    (applyNextTask { lengthMin := some q } s).mode = Mode.focus ∧
    (applyNextTask { lengthMin := some q } s).isRunning = false ∧
    (applyNextTask { lengthMin := some q } s).time = max 60 (roundHalfUp q * 60) ∧
    (applyNextTask { lengthMin := some q } s).sessionTotalSec
      = max 60 (roundHalfUp q * 60) := by
  have hsecs : taskSecs (some q) = max 60 (roundHalfUp q * 60) := by
    simp only [taskSecs]
    rw [if_neg hq]
  exact ⟨rfl, rfl, hsecs, hsecs⟩

/-- C5 witness: a half-minute task (`lengthMin = 1/2`) obeys the formula,
which the 1-minute floor makes `totalSec = 60`. -/
theorem applyNextTask_spec_witness :
    ((applyNextTask { lengthMin := some (1/2) } {}).mode = Mode.focus ∧
     (applyNextTask { lengthMin := some (1/2) } {}).isRunning = false ∧
     (applyNextTask { lengthMin := some (1/2) } {}).time
       = max 60 (roundHalfUp (1/2) * 60) ∧
     (applyNextTask { lengthMin := some (1/2) } {}).sessionTotalSec
       = max 60 (roundHalfUp (1/2) * 60)) ∧
    max 60 (roundHalfUp (1/2) * 60) = 60 :=
  ⟨applyNextTask_spec (1/2) {} (by norm_num), by norm_num [roundHalfUp]⟩

/-- C5 counterexample: a candidate with `lengthMin = 0` is treated as the
25-minute default, so the timer is set to 1500 seconds, not to the
claimed `max 60 (round 0 * 60) = 60`. -/
theorem applyNextTask_counterexample :
    (applyNextTask { lengthMin := some 0 } {}).time = 1500 ∧
    max 60 (roundHalfUp 0 * 60) = 60 := by
  constructor
  · show taskSecs (some 0) = 1500
    norm_num [taskSecs, roundHalfUp]
  · norm_num [roundHalfUp]

/-- C6: `commitMinutes` with an entered value outside `[1, 999]` clamps
to the nearest bound, and the new `time` is the clamped minutes times 60
plus the previous seconds remainder `time % 60`, with `sessionTotalSec`
set to the same value. -/
theorem commitMinutes_clamps (n : ℤ) (s : EngineState) (h : n < 1 ∨ 999 < n) :
    (commitMinutes n s).time
      = (if n < 1 then 1 else 999) * 60 + Int.tmod s.time 60 ∧
    (commitMinutes n s).sessionTotalSec = (commitMinutes n s).time ∧
    (commitMinutes n s).ended = false := by
  have ht : (commitMinutes n s).time
      = max 1 (min 999 n) * 60 + Int.tmod s.time 60 := rfl
  have htot : (commitMinutes n s).sessionTotalSec
      = max 1 (min 999 n) * 60 + Int.tmod s.time 60 := rfl
  refine ⟨?_, htot.trans ht.symm, rfl⟩
  rw [ht]
  rcases h with h | h
  · rw [if_pos h, (by omega : max 1 (min 999 n) = 1)]
  · rw [if_neg (by omega), (by omega : max 1 (min 999 n) = 999)]

/-- Demonstration state for the C6 witness: a timer at 2:05. -/
def editDemo : EngineState := { time := 125 }

/-- C6 witness: committing 1000 minutes on a 2:05 timer clamps to 999
and keeps the 5-second remainder. -/
theorem commitMinutes_clamps_witness :
    (commitMinutes 1000 editDemo).time
      = (if (1000 : ℤ) < 1 then 1 else 999) * 60 + Int.tmod editDemo.time 60 ∧
    (commitMinutes 1000 editDemo).sessionTotalSec = (commitMinutes 1000 editDemo).time ∧
    (commitMinutes 1000 editDemo).ended = false :=
  commitMinutes_clamps 1000 editDemo (Or.inr (by decide))

/-- On a non-guard-blocked timer end, the recorded duration of the
appended (last) session record is exactly `elapsedSecOf`. -/
lemma handleTimerEnd_log_getLast (now today : ℤ) (s : EngineState) (hend : s.ended = false) :
    ((handleTimerEnd now today s).log.getLast?.map Session.durationSec)
      = some (elapsedSecOf now s) := by
  unfold handleTimerEnd
  simp only [hend, Bool.false_eq_true, if_false]
  split <;> simp [saveSession_getLast]

/-- C7 (amended): when a start timestamp was captured, the appended
`durationSec` of the session record is `max 1 (round ((now - start)/1000))` —
at least 1 second and independent of the configured countdown length
(replacing `sessionTotalSec` by any `T` leaves it unchanged); without a
captured start timestamp the code falls back to `sessionTotalSec`. -/
theorem sessionDuration_elapsed (now today t0 T : ℤ) (s : EngineState)
    (hstart : s.sessionStartMs = some t0) (hend : s.ended = false) :
    ((handleTimerEnd now today s).log.getLast?.map Session.durationSec)
      = some (max 1 (roundHalfUp (((now - t0 : ℤ) : ℚ) / 1000))) ∧
    (1 : ℤ) ≤ max 1 (roundHalfUp (((now - t0 : ℤ) : ℚ) / 1000)) ∧
    ((handleTimerEnd now today { s with sessionTotalSec := T }).log.getLast?.map
        Session.durationSec)
      = ((handleTimerEnd now today s).log.getLast?.map Session.durationSec) := by
  have h1 := handleTimerEnd_log_getLast now today s hend
  have h2 := handleTimerEnd_log_getLast now today { s with sessionTotalSec := T } hend
  have helapsed : elapsedSecOf now s
      = max 1 (roundHalfUp (((now - t0 : ℤ) : ℚ) / 1000)) := by
    unfold elapsedSecOf
    rw [hstart]
  have helapsed2 : elapsedSecOf now { s with sessionTotalSec := T }
      = elapsedSecOf now s := by
    unfold elapsedSecOf
    rw [hstart]
  refine ⟨h1.trans (by rw [helapsed]), le_max_left _ _, ?_⟩
  rw [h1, h2, helapsed2]

/-- Demonstration state for the C7 witness: session started at epoch 0. -/
def durDemo : EngineState := { sessionStartMs := some 0, isRunning := true, time := 0 }

/-- C7 witness: ending at 100500 ms records
`max 1 (round 100.5) = 101` seconds, whatever the configured length. -/
theorem sessionDuration_elapsed_witness :
    ((handleTimerEnd 100500 0 durDemo).log.getLast?.map Session.durationSec)
      = some (max 1 (roundHalfUp (((100500 - 0 : ℤ) : ℚ) / 1000))) ∧
    (1 : ℤ) ≤ max 1 (roundHalfUp (((100500 - 0 : ℤ) : ℚ) / 1000)) ∧
    ((handleTimerEnd 100500 0 { durDemo with sessionTotalSec := 999 }).log.getLast?.map
        Session.durationSec)
      = ((handleTimerEnd 100500 0 durDemo).log.getLast?.map Session.durationSec) :=
  sessionDuration_elapsed 100500 0 0 999 durDemo rfl rfl

/-- Mode-end state with no captured start timestamp and a 1500-second
configured length (the C7 counterexample, first state). -/
def noStartDemoA : EngineState := { time := 0, isRunning := true, sessionTotalSec := 1500 }

/-- Same state with a 3000-second configured length (second state). -/
def noStartDemoB : EngineState := { time := 0, isRunning := true, sessionTotalSec := 3000 }

/-- C7 counterexample: a session auto-started without a captured start
timestamp records the configured countdown length: two states that are
identical except for `sessionTotalSec` (1500 vs 3000) record durations
1500 and 3000, so the recorded duration is not independent of the
configured length. -/
theorem sessionDuration_counterexample :
    ((handleTimerEnd 0 0 noStartDemoA).log.getLast?.map Session.durationSec) = some 1500 ∧
    ((handleTimerEnd 0 0 noStartDemoB).log.getLast?.map Session.durationSec) = some 3000 ∧
    noStartDemoB = { noStartDemoA with sessionTotalSec := 3000 } := by
  refine ⟨rfl, rfl, rfl⟩

/-- C8 (amended): a start via the start/pause control with no in-flight
session captures a fresh session identifier and the current instant as
start timestamp; the deferred auto-start scheduled by `applyNextTask`
(modelled by `autoStartFire`) only flips the running flag and captures
neither. -/
theorem startPause_captures (now : ℤ) (s : EngineState)
    (hrun : s.isRunning = false) (hid : s.currentSessionId = none) :
    (handleStartPause now s).isRunning = true ∧
    (handleStartPause now s).currentSessionId = some s.nextId ∧
    (handleStartPause now s).sessionStartMs = some now ∧
    (handleStartPause now s).nextId = s.nextId + 1 := by
  unfold handleStartPause
  rw [if_pos ⟨hrun, hid⟩]
  exact ⟨rfl, rfl, rfl, rfl⟩

/-- Demonstration state for the C8 witness: idle engine, no in-flight
session. -/
def idleDemo : EngineState := { isRunning := false }

/-- C8 witness: pressing start at instant 42 on the idle engine captures
the fresh id and the timestamp 42. -/
theorem startPause_captures_witness :
    (handleStartPause 42 idleDemo).isRunning = true ∧
    (handleStartPause 42 idleDemo).currentSessionId = some idleDemo.nextId ∧
    (handleStartPause 42 idleDemo).sessionStartMs = some 42 ∧
    (handleStartPause 42 idleDemo).nextId = idleDemo.nextId + 1 :=
  startPause_captures 42 idleDemo rfl rfl

/-- Idle engine used by the C8 counterexample. -/
def idleAutoDemo : EngineState := { isRunning := false }

/-- C8 counterexample: the deferred auto-start transition takes the idle
engine from not running to running and yet captures no session
identifier and no start timestamp. -/
theorem autoStart_no_capture :
    idleAutoDemo.isRunning = false ∧
    idleAutoDemo.currentSessionId = none ∧
    (autoStartFire idleAutoDemo).isRunning = true ∧
    (autoStartFire idleAutoDemo).currentSessionId = none ∧
    (autoStartFire idleAutoDemo).sessionStartMs = none :=
  ⟨rfl, rfl, rfl, rfl, rfl⟩

/-- C9 (amended): the session-log append (`saveSessionStore`, whose body
is inside `try`/`catch`) swallows a storage-write failure — the caller
sees no exception and the stored log is simply left unchanged — while
`saveStats` has no handler, so the same failure propagates to its caller
as an exception. -/
theorem persistFailure_swallowed (st : Storage) (entry : Session) (v : Stats)
    (h : st.writeFails = true) :
    saveSessionStore st entry = st ∧ saveStats st v = Except.error () := by
  constructor
  · unfold saveSessionStore
    rw [if_pos h]
  · unfold saveStats
    rw [if_pos h]

/-- A storage whose writes fail (quota exceeded), for the C9 witness. -/
def failingStore : Storage := { writeFails := true }

/-- C9 witness: on the failing storage the append is a swallowed no-op
and the stats write raises. -/
theorem persistFailure_swallowed_witness :
    saveSessionStore failingStore {} = failingStore ∧
    saveStats failingStore {} = Except.error () :=
  persistFailure_swallowed failingStore {} {} rfl

/-- A second failing storage, for the C9 counterexample. -/
def failingStoreB : Storage := { sessions := [], statsKV := none, writeFails := true }

/-- C9 counterexample: `saveStats` has no `try`/`catch`, so a
storage-write failure propagates to the caller as an exception instead
of being swallowed. -/
theorem saveStats_raises :
    saveStats failingStoreB { todayDate := 7, todayPomos := 1 } = Except.error () := rfl

/-- C10: loading stats whose stored `todayDate` is not today resets the
daily counters and stamps today, while `streak` and `lastDay` are
spread through exactly as stored. -/
theorem loadStats_rollover (s : Stats) (today : ℤ) (h : s.todayDate ≠ today) :
    loadStats (some s) today =
      { todayDate := today, todayPomos := 0, todayFocusSec := 0,
        streak := s.streak, lastDay := s.lastDay } := by
  have hm : loadStats (some s) today =
      if s.todayDate ≠ today then
        { s with todayDate := today, todayPomos := 0, todayFocusSec := 0 }
      else s := rfl
  rw [hm, if_pos h]

/-- A stale stored stats object: day 3, streak 7, for the C10 witness. -/
def staleStats : Stats :=
  { todayDate := 3, todayPomos := 4, todayFocusSec := 100, streak := 7, lastDay := some 3 }

/-- C10 witness: loading the day-3 stats on day 4 clears the daily
counters but keeps streak 7 and last active day 3. -/
theorem loadStats_rollover_witness :
    loadStats (some staleStats) 4 =
      { todayDate := 4, todayPomos := 0, todayFocusSec := 0,
        streak := staleStats.streak, lastDay := staleStats.lastDay } :=
  loadStats_rollover staleStats 4 (by decide)
